import Mathlib

/-!
Verification of the cross-product dispatch pipeline of
`aten/src/ATen/native/Cross.cpp` (axis resolution, broadcast shape
inference, operand expansion, output resize, kernel dispatch).

Tensors are embedded shallowly: a shape (list of int64 extents), the
element data as a total function from a multi-index to an integer value,
and a device tag.  Helper routines that `Cross.cpp` calls but whose code
is outside this repository snapshot (`infer_size`, `maybe_wrap_dim`,
`Tensor::expand`, `resize_output`, the per-device cross kernel) are
modelled from the specification and marked as such in their doc comments.
-/

namespace CrossSpec

/-- Device/backend tag of an array (spec §3, "Device tag"). -/
inductive DeviceType where
  | cpu
  | cuda
  deriving DecidableEq, Repr

/-- The error taxonomy of the pipeline (spec §7), plus the out-of-range
axis failure raised by dimension wrapping. -/
inductive CrossError where
  | NoSuitableAxis
  | IncompatibleShapes
  | AxisOutOfRange
  | AxisExtentMismatch
  deriving DecidableEq, Repr

/-- Shallow embedding of an ATen tensor: its sizes (shape), its element
data as a total function from a multi-index (one coordinate per
dimension) to an integer element, and its device tag. -/
structure Tensor where
  sizes : List Int
  data : List Nat → Int
  device : DeviceType

/-- Index of the first extent equal to 3, embedding the scan loop of
`_default_cross_dim` (Cross.cpp lines 18-22). -/
def firstSize3 : List Int → Option Nat
  | [] => none
  | s :: rest => if s = 3 then some 0 else Option.map (fun i => i + 1) (firstSize3 rest)

/-- `_default_cross_dim` (Cross.cpp lines 13-24): an explicit dimension is
returned unmodified; otherwise the first dimension of size 3 is returned;
otherwise the check `TORCH_CHECK(false, "no dimension of size 3 in input")`
fires. -/
def _default_cross_dim (dimension : Option Int) (sizes : List Int) :
    Except CrossError Int :=
  match dimension with
  | some d => Except.ok d
  | none =>
    match firstSize3 sizes with
    | some i => Except.ok (Int.ofNat i)
    | none => Except.error CrossError.NoSuitableAxis

/-- Modelled from the spec: `infer_size` (ATen `ExpandUtils`) is not in
the snapshot.  Spec §4.2: per aligned position the output extent is
`max a b` when `a = b` or `a = 1` or `b = 1`, else `IncompatibleShapes`.
This helper consumes the already right-aligned pair list. -/
def inferSizeAux : List (Int × Int) → Except CrossError (List Int)
  | [] => Except.ok []
  | p :: rest =>
    if p.1 = p.2 ∨ p.1 = 1 ∨ p.2 = 1 then
      Except.map (fun r => max p.1 p.2 :: r) (inferSizeAux rest)
    else Except.error CrossError.IncompatibleShapes

/-- Pad a shape on the left with extent-1 dimensions up to rank `n`
(spec §4.2: right-align the two shapes). -/
def padLeft (n : Nat) (l : List Int) : List Int :=
  List.replicate (n - l.length) 1 ++ l

/-- Modelled from the spec: `infer_size` (spec §4.2, Broadcast Shape
Inferencer) — right-align both shapes to rank `max rankA rankB`, then
combine positionwise. -/
def infer_size (a b : List Int) : Except CrossError (List Int) :=
  inferSizeAux (List.zip (padLeft (max a.length b.length) a)
                         (padLeft (max a.length b.length) b))

/-- Extent of a shape at aligned position `i` once right-aligned to rank
`n` (missing leading dimensions read as extent 1). -/
def alignedExtent (n : Nat) (l : List Int) (i : Nat) : Int :=
  List.getD (padLeft n l) i 1

/-- The broadcast compatibility test of one aligned extent pair
(spec §3): equal, or one of the two is 1. -/
def compatibleExtent (a b : Int) : Prop := a = b ∨ a = 1 ∨ b = 1

instance (a b : Int) : Decidable (compatibleExtent a b) := by
  unfold compatibleExtent
  infer_instance

/-- Modelled from the spec: `maybe_wrap_dim` (c10) is not in the
snapshot.  Spec §3, "Axis": valid range is the array's rank, with
negative values wrapping by adding the rank. -/
def maybe_wrap_dim (dim rank : Int) : Except CrossError Int :=
  if dim < -rank ∨ rank ≤ dim then Except.error CrossError.AxisOutOfRange
  else if dim < 0 then Except.ok (dim + rank) else Except.ok dim

/-- Modelled from the spec: `Tensor::expand` (view semantics) is not in
the snapshot.  Spec §4.2 `expandTo`: the result's logical shape is the
target; an element is read from the source by dropping the added leading
coordinates and clamping coordinates of stretched extent-1 dimensions
to 0. -/
def expand (t : Tensor) (target : List Int) : Tensor :=
  Tensor.mk target
    (fun idx =>
      t.data (List.zipWith (fun e i => if e = 1 then 0 else i) t.sizes
        (List.drop (target.length - t.sizes.length) idx)))
    t.device

/-- The conditional expansion of one operand (Cross.cpp lines 50-58):
when the operand's sizes already equal the broadcast sizes the operand is
passed through unchanged and `expand` is not called.  The boolean records
whether `expand` was invoked. -/
def broadcastStep (t : Tensor) (target : List Int) : Tensor × Bool :=
  if t.sizes = target then (t, false) else (expand t target, true)

/-- Number of elements of a shape: the product of its extents. -/
def numel (sizes : List Int) : Int := List.foldr (fun a b => a * b) 1 sizes

/-- Modelled from the spec: `at::native::resize_output` is not in the
snapshot.  Spec §4.3 Output Preparer: no-op when the shape already
matches; otherwise resize to the target (discarding contents) and emit
exactly one diagnostic when the previous contents were non-empty.  The
natural number counts emitted diagnostics. -/
def resize_output (out : Tensor) (target : List Int) : Tensor × Nat :=
  if out.sizes = target then (out, 0)
  else (Tensor.mk target (fun _ => 0) out.device,
        if numel out.sizes = 0 then 0 else 1)

/-- Modelled from the spec: the per-device cross kernel behind
`cross_stub` (spec §4.5).  For a multi-index whose coordinate along `dim`
is `k`, the output is the `k`-th cross-product component of the two
3-element slices along `dim` through that index. -/
def crossKernelData (dim : Nat) (a b : List Nat → Int) : List Nat → Int :=
  fun idx =>
    if List.getD idx dim 0 = 0 then
      a (List.set idx dim 1) * b (List.set idx dim 2)
        - a (List.set idx dim 2) * b (List.set idx dim 1)
    else if List.getD idx dim 0 = 1 then
      a (List.set idx dim 2) * b (List.set idx dim 0)
        - a (List.set idx dim 0) * b (List.set idx dim 2)
    else
      a (List.set idx dim 0) * b (List.set idx dim 1)
        - a (List.set idx dim 1) * b (List.set idx dim 0)

/-- The axis actually used by `linalg_cross_out`: Cross.cpp line 61 wraps
the caller's dimension against `input.dim()`, the rank of the original
first input. -/
def resolvedDim (input : Tensor) (dimension : Int) : Except CrossError Int :=
  maybe_wrap_dim dimension (Int.ofNat input.sizes.length)

/-- Observable outcome of one `linalg_cross_out` call: its status, the
final state of the caller-supplied output tensor, how many resize
diagnostics were emitted, and the device tag handed to `cross_stub`
(none when no dispatch happened). -/
structure CrossResult where
  status : Except CrossError Unit
  out : Tensor
  warnings : Nat
  dispatched : Option DeviceType

/-- `linalg_cross_out` (Cross.cpp lines 42-70): take the first input's
device tag, infer the broadcast shape, conditionally expand both inputs,
wrap the dimension against the first input's rank, check the extent at
the resolved dimension is 3, resize the output, and dispatch. -/
def linalg_cross_out (input other : Tensor) (dimension : Int) (out : Tensor) :
    CrossResult :=
  match infer_size input.sizes other.sizes with
  | Except.error e => CrossResult.mk (Except.error e) out 0 none
  | Except.ok out_size =>
    match resolvedDim input dimension with
    | Except.error e => CrossResult.mk (Except.error e) out 0 none
    | Except.ok dim =>
      if List.getD (broadcastStep input out_size).1.sizes dim.toNat 0 = 3 then
        CrossResult.mk (Except.ok ())
          (Tensor.mk (resize_output out out_size).1.sizes
            (crossKernelData dim.toNat (broadcastStep input out_size).1.data
              (broadcastStep other out_size).1.data)
            (resize_output out out_size).1.device)
          (resize_output out out_size).2
          (some input.device)
      else CrossResult.mk (Except.error CrossError.AxisExtentMismatch) out 0 none

/-- `cross_out` (Cross.cpp lines 31-34): resolve the default dimension
against the first input's sizes, then delegate to `linalg_cross_out`. -/
def cross_out (input other : Tensor) (dimension : Option Int) (out : Tensor) :
    CrossResult :=
  match _default_cross_dim dimension input.sizes with
  | Except.error e => CrossResult.mk (Except.error e) out 0 none
  | Except.ok dim => linalg_cross_out input other dim out

/-- `at::empty({0}, input.options())` as used by `linalg_cross`
(Cross.cpp line 37): a fresh one-dimensional empty tensor on the given
device. -/
def emptyLike0 (d : DeviceType) : Tensor := Tensor.mk [0] (fun _ => 0) d

/-- `cross` (Cross.cpp lines 26-29) composed with `linalg_cross`
(lines 36-40): resolve the default dimension, allocate a fresh empty
output, delegate. -/
def cross (input other : Tensor) (dimension : Option Int) : CrossResult :=
  match _default_cross_dim dimension input.sizes with
  | Except.error e =>
    CrossResult.mk (Except.error e) (emptyLike0 input.device) 0 none
  | Except.ok dim => linalg_cross_out input other dim (emptyLike0 input.device)

/-! ### Basic lemmas about the shape helpers -/

theorem padLeft_length (n : Nat) (l : List Int) (h : l.length ≤ n) :
    (padLeft n l).length = n := by
  simp [padLeft, Nat.sub_add_cancel h]

theorem inferSizeAux_length (l : List (Int × Int)) (r : List Int)
    (h : inferSizeAux l = Except.ok r) : r.length = l.length := by
  induction l generalizing r with
  | nil => simp [inferSizeAux] at h; simp [← h]
  | cons p rest ih =>
    simp only [inferSizeAux] at h
    split at h
    · cases hr : inferSizeAux rest with
      | error e => rw [hr] at h; simp [Except.map] at h
      | ok r0 =>
        rw [hr] at h
        simp [Except.map] at h
        simp [← h, ih r0 hr]
    · simp at h

theorem inferSizeAux_error (l : List (Int × Int)) (e : CrossError)
    (h : inferSizeAux l = Except.error e) : e = CrossError.IncompatibleShapes := by
  induction l with
  | nil => simp [inferSizeAux] at h
  | cons p rest ih =>
    simp only [inferSizeAux] at h
    split at h
    · cases hr : inferSizeAux rest with
      | error e0 =>
        rw [hr] at h
        simp [Except.map] at h
        exact ih (h ▸ hr)
      | ok r0 => rw [hr] at h; simp [Except.map] at h
    · simp at h; exact h.symm

theorem infer_size_ok_length (a b : List Int) (r : List Int)
    (h : infer_size a b = Except.ok r) :
    r.length = max a.length b.length := by
  have h1 := inferSizeAux_length _ _ h
  rw [List.length_zip, padLeft_length _ _ (Nat.le_max_left _ _),
      padLeft_length _ _ (Nat.le_max_right _ _), Nat.min_self] at h1
  exact h1

theorem infer_size_error (a b : List Int) (e : CrossError)
    (h : infer_size a b = Except.error e) : e = CrossError.IncompatibleShapes :=
  inferSizeAux_error _ _ h

theorem maybe_wrap_dim_ok (dim rank d : Int)
    (h : maybe_wrap_dim dim rank = Except.ok d) :
    -rank ≤ dim ∧ dim < rank ∧ d = (if dim < 0 then dim + rank else dim) := by
  unfold maybe_wrap_dim at h
  split at h
  · simp at h
  · rename_i hrange
    push_neg at hrange
    refine ⟨hrange.1, hrange.2, ?_⟩
    split at h <;> (rename_i hneg; simp at h; simp [hneg, ← h])

theorem maybe_wrap_dim_error (dim rank : Int) (e : CrossError)
    (h : maybe_wrap_dim dim rank = Except.error e) : e = CrossError.AxisOutOfRange := by
  unfold maybe_wrap_dim at h
  split at h
  · simp at h; exact h.symm
  · split at h <;> simp at h

theorem broadcastStep_fst_sizes (t : Tensor) (target : List Int) :
    (broadcastStep t target).1.sizes = target := by
  unfold broadcastStep
  split
  · rename_i h; exact h
  · rfl

theorem firstSize3_of_first (l : List Int) (i : Nat) (hi : i < l.length)
    (h3 : List.getD l i 0 = 3) (hmin : ∀ k, k < i → List.getD l k 0 ≠ 3) :
    firstSize3 l = some i := by
  induction l generalizing i with
  | nil => simp at hi
  | cons s rest ih =>
    cases i with
    | zero =>
      simp [List.getD] at h3
      simp [firstSize3, h3]
    | succ j =>
      have hs : s ≠ 3 := by
        have := hmin 0 (Nat.succ_pos j)
        simpa [List.getD] using this
      have hj : j < rest.length := by simpa using hi
      have h3r : List.getD rest j 0 = 3 := by simpa [List.getD] using h3
      have hminr : ∀ k, k < j → List.getD rest k 0 ≠ 3 := by
        intro k hk
        have := hmin (k + 1) (Nat.succ_lt_succ hk)
        simpa [List.getD] using this
      simp [firstSize3, hs, ih j hj h3r hminr]

theorem firstSize3_eq_none_iff (l : List Int) :
    firstSize3 l = none ↔ ∀ i, i < l.length → List.getD l i 0 ≠ 3 := by
  induction l with
  | nil => simp [firstSize3]
  | cons s rest ih =>
    by_cases hs : s = 3
    · simp only [firstSize3, hs, if_pos rfl]
      constructor
      · intro h; cases h
      · intro h
        exact absurd (by simp [List.getD]) (h 0 (by simp))
    · simp only [firstSize3, if_neg hs]
      constructor
      · intro h i hi
        cases i with
        | zero => simpa [List.getD] using hs
        | succ j =>
          have hrest : firstSize3 rest = none := by
            cases hr : firstSize3 rest
            · rfl
            · rw [hr] at h; simp at h
          have hj : j < rest.length := by simpa using hi
          simpa [List.getD] using (ih.mp hrest) j hj
      · intro h
        have hrest : ∀ i, i < rest.length → List.getD rest i 0 ≠ 3 := by
          intro i hi
          have := h (i + 1) (by simpa using Nat.succ_lt_succ hi)
          simpa [List.getD] using this
        simp [ih.mpr hrest]

theorem resolvedDim_nonneg_ok (t : Tensor) (dimension d : Int)
    (hd : 0 ≤ dimension) (h : resolvedDim t dimension = Except.ok d) :
    d = dimension := by
  have := maybe_wrap_dim_ok _ _ _ h
  rcases this with ⟨_, _, hval⟩
  rw [hval, if_neg (by omega)]

theorem resolvedDim_lt_rank (t : Tensor) (dimension d : Int)
    (h : resolvedDim t dimension = Except.ok d) :
    0 ≤ d ∧ d < Int.ofNat t.sizes.length := by
  have := maybe_wrap_dim_ok _ _ _ h
  rcases this with ⟨hlo, hhi, hval⟩
  constructor
  · rw [hval]; split <;> omega
  · rw [hval]; split <;> omega

/-- `linalg_cross_out` can only fail with a broadcasting, axis-range or
axis-extent error, never with `NoSuitableAxis`. -/
theorem linalg_cross_out_no_NoSuitableAxis (input other out : Tensor)
    (dimension : Int) :
    (linalg_cross_out input other dimension out).status
      ≠ Except.error CrossError.NoSuitableAxis := by
  cases hsz : infer_size input.sizes other.sizes with
  | error e => simp [linalg_cross_out, hsz, infer_size_error _ _ _ hsz]
  | ok out_size =>
    cases hd : resolvedDim input dimension with
    | error e => simp [linalg_cross_out, hsz, hd, maybe_wrap_dim_error _ _ _ hd]
    | ok d =>
      simp only [linalg_cross_out, hsz, hd]
      split <;> simp

theorem inferSizeAux_ok_of_compat (l : List (Int × Int))
    (h : ∀ p ∈ l, p.1 = p.2 ∨ p.1 = 1 ∨ p.2 = 1) :
    inferSizeAux l = Except.ok (List.map (fun p => max p.1 p.2) l) := by
  induction l with
  | nil => simp [inferSizeAux]
  | cons p rest ih =>
    have hp := h p (List.mem_cons_self p rest)
    have hrest := ih (fun q hq => h q (List.mem_cons_of_mem p hq))
    simp [inferSizeAux, hp, hrest, Except.map]

theorem inferSizeAux_error_of_incompat (l : List (Int × Int))
    (h : ∃ p ∈ l, ¬(p.1 = p.2 ∨ p.1 = 1 ∨ p.2 = 1)) :
    inferSizeAux l = Except.error CrossError.IncompatibleShapes := by
  induction l with
  | nil => simp at h
  | cons p rest ih =>
    by_cases hp : p.1 = p.2 ∨ p.1 = 1 ∨ p.2 = 1
    · have hmem : ∃ q ∈ rest, ¬(q.1 = q.2 ∨ q.1 = 1 ∨ q.2 = 1) := by
        rcases h with ⟨q, hq, hnc⟩
        rcases List.mem_cons.mp hq with hq0 | hqr
        · exact absurd (hq0 ▸ hp) hnc
        · exact ⟨q, hqr, hnc⟩
      simp [inferSizeAux, hp, ih hmem, Except.map]
    · simp [inferSizeAux, hp]

theorem inferSizeAux_swap (l : List (Int × Int)) :
    inferSizeAux (List.map Prod.swap l) = inferSizeAux l := by
  induction l with
  | nil => simp
  | cons p rest ih =>
    simp only [List.map_cons, inferSizeAux, Prod.fst_swap, Prod.snd_swap, ih]
    by_cases hp : p.1 = p.2 ∨ p.1 = 1 ∨ p.2 = 1
    · rw [if_pos hp, if_pos (by tauto), max_comm]
    · rw [if_neg hp, if_neg (by tauto)]

theorem infer_size_comm (a b : List Int) : infer_size b a = infer_size a b := by
  unfold infer_size
  rw [Nat.max_comm b.length a.length, ← List.zip_swap, inferSizeAux_swap]

theorem crossKernelData_anticomm (dim : Nat) (a b : List Nat → Int)
    (idx : List Nat) :
    crossKernelData dim a b idx = -crossKernelData dim b a idx := by
  unfold crossKernelData
  by_cases h0 : List.getD idx dim 0 = 0
  · simp only [if_pos h0]; ring
  · by_cases h1 : List.getD idx dim 0 = 1
    · simp only [if_neg h0, if_pos h1]; ring
    · simp only [if_neg h0, if_neg h1]; ring

theorem default_cross_dim_error_cases (dimension : Option Int) (sizes : List Int)
    (e : CrossError) (h : _default_cross_dim dimension sizes = Except.error e) :
    e = CrossError.NoSuitableAxis ∧ dimension = none ∧ firstSize3 sizes = none := by
  cases dimension with
  | some d => simp [_default_cross_dim] at h
  | none =>
    cases hf : firstSize3 sizes with
    | some i => simp [_default_cross_dim, hf] at h
    | none =>
      simp [_default_cross_dim, hf] at h
      exact ⟨h.symm, rfl, rfl⟩

/-! ### Claim theorems -/

/-- C2: `_default_cross_dim` returns an explicitly given axis unmodified
(no wrapping, no validation), and with no explicit axis it returns the
index of the first dimension whose extent equals 3. -/
theorem resolveAxis_explicit_and_first_match (sizes : List Int) :
    (∀ d : Int, _default_cross_dim (some d) sizes = Except.ok d) ∧
    (∀ i : Nat, i < sizes.length → List.getD sizes i 0 = 3 →
      (∀ k, k < i → List.getD sizes k 0 ≠ 3) →
      _default_cross_dim none sizes = Except.ok (Int.ofNat i)) := by
  constructor
  · intro d; rfl
  · intro i hi h3 hmin
    simp [_default_cross_dim, firstSize3_of_first sizes i hi h3 hmin]

/-- Witness for C2: an explicit (even out-of-range, negative) axis passes
through unmodified, and the first of two extent-3 dimensions wins. -/
theorem resolveAxis_explicit_and_first_match_witness :
    _default_cross_dim (some (-7)) [5] = Except.ok (-7) ∧
    _default_cross_dim none [5, 3, 3] = Except.ok 1 :=
  ⟨(resolveAxis_explicit_and_first_match [5]).1 (-7),
   (resolveAxis_explicit_and_first_match [5, 3, 3]).2 1 (by decide) (by decide)
     (by decide)⟩

/-- C3: `_default_cross_dim` fails with `NoSuitableAxis` exactly when no
explicit axis is given and no dimension has extent 3, and this failure is
propagated unrecovered by both `cross` and `cross_out` (and it is the
only way those entry points can surface `NoSuitableAxis`). -/
theorem resolveAxis_no_suitable_axis (dimension : Option Int) (sizes : List Int)
    (input other out : Tensor) (dim0 : Option Int) :
    (_default_cross_dim dimension sizes = Except.error CrossError.NoSuitableAxis
       ↔ dimension = none ∧ ∀ i, i < sizes.length → List.getD sizes i 0 ≠ 3) ∧
    ((cross_out input other dim0 out).status = Except.error CrossError.NoSuitableAxis
       ↔ dim0 = none ∧ ∀ i, i < input.sizes.length → List.getD input.sizes i 0 ≠ 3) ∧
    ((cross input other dim0).status = Except.error CrossError.NoSuitableAxis
       ↔ dim0 = none ∧ ∀ i, i < input.sizes.length → List.getD input.sizes i 0 ≠ 3) := by
  have key : ∀ (dm : Option Int) (sz : List Int),
      _default_cross_dim dm sz = Except.error CrossError.NoSuitableAxis
        ↔ dm = none ∧ ∀ i, i < sz.length → List.getD sz i 0 ≠ 3 := by
    intro dm sz
    constructor
    · intro h
      obtain ⟨_, hn, hf⟩ := default_cross_dim_error_cases dm sz _ h
      exact ⟨hn, (firstSize3_eq_none_iff sz).mp hf⟩
    · rintro ⟨rfl, hall⟩
      simp [_default_cross_dim, (firstSize3_eq_none_iff sz).mpr hall]
  refine ⟨key dimension sizes, ?_, ?_⟩
  · constructor
    · intro h
      cases hd : _default_cross_dim dim0 input.sizes with
      | error e =>
        obtain ⟨_, hn, hf⟩ := default_cross_dim_error_cases dim0 input.sizes e hd
        exact ⟨hn, (firstSize3_eq_none_iff _).mp hf⟩
      | ok dim =>
        simp only [cross_out, hd] at h
        exact absurd h (linalg_cross_out_no_NoSuitableAxis input other out dim)
    · intro hr
      have hd := (key dim0 input.sizes).mpr hr
      simp [cross_out, hd]
  · constructor
    · intro h
      cases hd : _default_cross_dim dim0 input.sizes with
      | error e =>
        obtain ⟨_, hn, hf⟩ := default_cross_dim_error_cases dim0 input.sizes e hd
        exact ⟨hn, (firstSize3_eq_none_iff _).mp hf⟩
      | ok dim =>
        simp only [cross, hd] at h
        exact absurd h
          (linalg_cross_out_no_NoSuitableAxis input other (emptyLike0 input.device) dim)
    · intro hr
      have hd := (key dim0 input.sizes).mpr hr
      simp [cross, hd]

/-- Witness for C3: a shape with no extent-3 dimension and no explicit
axis fails with `NoSuitableAxis`. -/
theorem resolveAxis_no_suitable_axis_witness :
    _default_cross_dim none [2, 4] = Except.error CrossError.NoSuitableAxis :=
  ((resolveAxis_no_suitable_axis none [2, 4]
      (Tensor.mk [2, 4] (fun _ => 0) DeviceType.cpu)
      (Tensor.mk [2, 4] (fun _ => 0) DeviceType.cpu)
      (emptyLike0 DeviceType.cpu) none).1).mpr ⟨rfl, by decide⟩

/-- C6: when an operand's sizes already equal the broadcast target, the
conditional expansion of Cross.cpp lines 53-58 passes the identical
tensor through and never calls `expand` (flag `false`). -/
theorem expand_noop_when_shapes_match (t : Tensor) (target : List Int)
    (h : t.sizes = target) : broadcastStep t target = (t, false) := by
  unfold broadcastStep
  rw [if_pos h]

/-- Witness for C6: a concrete tensor expanded to its own shape comes
back unchanged, with the expansion flag down. -/
theorem expand_noop_when_shapes_match_witness :
    broadcastStep (Tensor.mk [3] (fun _ => 5) DeviceType.cpu) [3]
      = (Tensor.mk [3] (fun _ => 5) DeviceType.cpu, false) :=
  expand_noop_when_shapes_match (Tensor.mk [3] (fun _ => 5) DeviceType.cpu) [3] rfl

theorem broadcastStep_data_mk (t : Tensor) (d : DeviceType) (target : List Int) :
    (broadcastStep (Tensor.mk t.sizes t.data d) target).1.data
      = (broadcastStep t target).1.data := by
  by_cases h : t.sizes = target <;> simp [broadcastStep, h, expand]

/-- C4: whenever broadcasting and axis resolution succeed but the extent
of the broadcast shape at the resolved axis is not 3, `linalg_cross_out`
fails with the axis-extent error of Cross.cpp line 62. -/
theorem crossExplicit_axis_extent_mismatch (input other out : Tensor)
    (dimension : Int) (out_size : List Int) (d : Int)
    (hsz : infer_size input.sizes other.sizes = Except.ok out_size)
    (hd : resolvedDim input dimension = Except.ok d)
    (h3 : List.getD out_size d.toNat 0 ≠ 3) :
    (linalg_cross_out input other dimension out).status
      = Except.error CrossError.AxisExtentMismatch := by
  simp only [linalg_cross_out, hsz, hd]
  have hb : List.getD (broadcastStep input out_size).1.sizes d.toNat 0
      = List.getD out_size d.toNat 0 := by rw [broadcastStep_fst_sizes]
  rw [hb, if_neg h3]

/-- Witness for C4, the spec's own example: axis 0 with first extent 4
(shapes `[4,3]` against `[4,3]`) fails with the extent error. -/
theorem crossExplicit_axis_extent_mismatch_witness :
    (linalg_cross_out (Tensor.mk [4, 3] (fun _ => 0) DeviceType.cpu)
        (Tensor.mk [4, 3] (fun _ => 0) DeviceType.cpu) 0
        (emptyLike0 DeviceType.cpu)).status
      = Except.error CrossError.AxisExtentMismatch :=
  crossExplicit_axis_extent_mismatch
    (Tensor.mk [4, 3] (fun _ => 0) DeviceType.cpu)
    (Tensor.mk [4, 3] (fun _ => 0) DeviceType.cpu)
    (emptyLike0 DeviceType.cpu) 0 [4, 3] 0 rfl rfl (by decide)

/-- C9: when `linalg_cross_out` fails with any error, the caller-supplied
output tensor is returned untouched and no resize diagnostic was emitted:
every check precedes the output resize and the kernel dispatch. -/
theorem linalg_cross_out_error_atomic (input other out : Tensor)
    (dimension : Int) (e : CrossError)
    (h : (linalg_cross_out input other dimension out).status = Except.error e) :
    (linalg_cross_out input other dimension out).out = out ∧
    (linalg_cross_out input other dimension out).warnings = 0 := by
  cases hsz : infer_size input.sizes other.sizes with
  | error e2 => simp [linalg_cross_out, hsz]
  | ok out_size =>
    cases hd : resolvedDim input dimension with
    | error e2 => simp [linalg_cross_out, hsz, hd]
    | ok d =>
      simp only [linalg_cross_out, hsz, hd] at h ⊢
      by_cases hc : List.getD (broadcastStep input out_size).1.sizes d.toNat 0 = 3
      · rw [if_pos hc] at h
        simp at h
      · rw [if_neg hc]
        exact ⟨rfl, rfl⟩

/-- Witness for C9: the incompatible-shapes failure on `(2,3)` against
`(4,3)` leaves a pre-populated output tensor exactly as it was. -/
theorem linalg_cross_out_error_atomic_witness :
    (linalg_cross_out (Tensor.mk [2, 3] (fun _ => 1) DeviceType.cpu)
        (Tensor.mk [4, 3] (fun _ => 2) DeviceType.cpu) 0
        (Tensor.mk [2] (fun _ => 9) DeviceType.cpu)).out
      = Tensor.mk [2] (fun _ => 9) DeviceType.cpu ∧
    (linalg_cross_out (Tensor.mk [2, 3] (fun _ => 1) DeviceType.cpu)
        (Tensor.mk [4, 3] (fun _ => 2) DeviceType.cpu) 0
        (Tensor.mk [2] (fun _ => 9) DeviceType.cpu)).warnings = 0 :=
  linalg_cross_out_error_atomic
    (Tensor.mk [2, 3] (fun _ => 1) DeviceType.cpu)
    (Tensor.mk [4, 3] (fun _ => 2) DeviceType.cpu)
    (Tensor.mk [2] (fun _ => 9) DeviceType.cpu) 0
    CrossError.IncompatibleShapes rfl

/-- C10: the whole observable outcome of `linalg_cross_out` is unchanged
under any change of the second input's device tag, and the device handed
to the kernel dispatch is (when a dispatch happens at all) exactly the
first input's device tag of Cross.cpp line 43. -/
theorem dispatch_keyed_on_first_input_device (input other out : Tensor)
    (dimension : Int) (d : DeviceType) :
    linalg_cross_out input (Tensor.mk other.sizes other.data d) dimension out
      = linalg_cross_out input other dimension out ∧
    ((linalg_cross_out input other dimension out).dispatched = none ∨
     (linalg_cross_out input other dimension out).dispatched
       = some input.device) := by
  constructor
  · cases hsz : infer_size input.sizes other.sizes with
    | error e => simp [linalg_cross_out, hsz]
    | ok out_size =>
      cases hd : resolvedDim input dimension with
      | error e => simp [linalg_cross_out, hsz, hd]
      | ok dd =>
        simp only [linalg_cross_out, hsz, hd]
        by_cases hc :
            List.getD (broadcastStep input out_size).1.sizes dd.toNat 0 = 3
        · rw [if_pos hc, if_pos hc, broadcastStep_data_mk other d out_size]
        · rw [if_neg hc, if_neg hc]
  · cases hsz : infer_size input.sizes other.sizes with
    | error e => left; simp [linalg_cross_out, hsz]
    | ok out_size =>
      cases hd : resolvedDim input dimension with
      | error e => left; simp [linalg_cross_out, hsz, hd]
      | ok dd =>
        simp only [linalg_cross_out, hsz, hd]
        by_cases hc :
            List.getD (broadcastStep input out_size).1.sizes dd.toNat 0 = 3
        · right; rw [if_pos hc]
        · left; rw [if_neg hc]

/-- Witness for C10: moving the second input to another device changes
nothing about the call's outcome. -/
theorem dispatch_keyed_on_first_input_device_witness :
    linalg_cross_out (Tensor.mk [3] (fun _ => 1) DeviceType.cpu)
        (Tensor.mk [3] (fun _ => 2) DeviceType.cuda) 0
        (emptyLike0 DeviceType.cpu)
      = linalg_cross_out (Tensor.mk [3] (fun _ => 1) DeviceType.cpu)
          (Tensor.mk [3] (fun _ => 2) DeviceType.cpu) 0
          (emptyLike0 DeviceType.cpu) :=
  (dispatch_keyed_on_first_input_device
      (Tensor.mk [3] (fun _ => 1) DeviceType.cpu)
      (Tensor.mk [3] (fun _ => 2) DeviceType.cpu)
      (emptyLike0 DeviceType.cpu) 0 DeviceType.cuda).1

theorem resize_output_fst_sizes (out : Tensor) (target : List Int) :
    (resize_output out target).1.sizes = target := by
  unfold resize_output
  split
  · rename_i h; exact h
  · rfl

/-- C7: after a successful `linalg_cross_out` call, the output tensor's
sizes equal the broadcast target exactly, and when the supplied output
was non-empty with a different shape exactly one discard diagnostic was
emitted during the resize. -/
theorem crossExplicit_out_shape_and_diagnostic (input other out : Tensor)
    (dimension : Int) (out_size : List Int)
    (hsz : infer_size input.sizes other.sizes = Except.ok out_size)
    (hok : (linalg_cross_out input other dimension out).status = Except.ok ()) :
    (linalg_cross_out input other dimension out).out.sizes = out_size ∧
    (out.sizes ≠ out_size → numel out.sizes ≠ 0 →
      (linalg_cross_out input other dimension out).warnings = 1) := by
  cases hd : resolvedDim input dimension with
  | error e => simp [linalg_cross_out, hsz, hd] at hok
  | ok d =>
    simp only [linalg_cross_out, hsz, hd] at hok ⊢
    by_cases hc : List.getD (broadcastStep input out_size).1.sizes d.toNat 0 = 3
    · rw [if_pos hc]
      constructor
      · exact resize_output_fst_sizes out out_size
      · intro hne hnum
        show (resize_output out out_size).2 = 1
        simp [resize_output, hne, hnum]
    · rw [if_neg hc] at hok
      simp at hok

/-- Witness for C7: a pre-populated shape-`[2]` output is resized to the
broadcast shape `[3]` with exactly one discard diagnostic. -/
theorem crossExplicit_out_shape_and_diagnostic_witness :
    (linalg_cross_out (Tensor.mk [3] (fun _ => 1) DeviceType.cpu)
        (Tensor.mk [3] (fun _ => 2) DeviceType.cpu) 0
        (Tensor.mk [2] (fun _ => 9) DeviceType.cpu)).out.sizes = [3] ∧
    (linalg_cross_out (Tensor.mk [3] (fun _ => 1) DeviceType.cpu)
        (Tensor.mk [3] (fun _ => 2) DeviceType.cpu) 0
        (Tensor.mk [2] (fun _ => 9) DeviceType.cpu)).warnings = 1 :=
  ⟨(crossExplicit_out_shape_and_diagnostic
      (Tensor.mk [3] (fun _ => 1) DeviceType.cpu)
      (Tensor.mk [3] (fun _ => 2) DeviceType.cpu)
      (Tensor.mk [2] (fun _ => 9) DeviceType.cpu) 0 [3] rfl rfl).1,
   (crossExplicit_out_shape_and_diagnostic
      (Tensor.mk [3] (fun _ => 1) DeviceType.cpu)
      (Tensor.mk [3] (fun _ => 2) DeviceType.cpu)
      (Tensor.mk [2] (fun _ => 9) DeviceType.cpu) 0 [3] rfl rfl).2
     (by decide) (by decide)⟩

/-- C5: shapes that fail the aligned-extent compatibility test at some
position make `linalg_cross_out` fail with `IncompatibleShapes`, while
compatible shape pairs broadcast to the positionwise `max` of the aligned
extents. -/
theorem broadcast_rules_incompatible_or_max (input other out : Tensor)
    (dimension : Int) :
    ((∃ i, i < max input.sizes.length other.sizes.length ∧
        ¬ compatibleExtent
            (alignedExtent (max input.sizes.length other.sizes.length) input.sizes i)
            (alignedExtent (max input.sizes.length other.sizes.length) other.sizes i)) →
      (linalg_cross_out input other dimension out).status
        = Except.error CrossError.IncompatibleShapes) ∧
    ((∀ i, i < max input.sizes.length other.sizes.length →
        compatibleExtent
          (alignedExtent (max input.sizes.length other.sizes.length) input.sizes i)
          (alignedExtent (max input.sizes.length other.sizes.length) other.sizes i)) →
      ∃ r, infer_size input.sizes other.sizes = Except.ok r ∧
        r.length = max input.sizes.length other.sizes.length ∧
        ∀ i, i < max input.sizes.length other.sizes.length →
          List.getD r i 1
            = max (alignedExtent (max input.sizes.length other.sizes.length) input.sizes i)
                (alignedExtent (max input.sizes.length other.sizes.length) other.sizes i)) := by
  have hpa : (padLeft (max input.sizes.length other.sizes.length) input.sizes).length
      = max input.sizes.length other.sizes.length :=
    padLeft_length _ _ (Nat.le_max_left _ _)
  have hpb : (padLeft (max input.sizes.length other.sizes.length) other.sizes).length
      = max input.sizes.length other.sizes.length :=
    padLeft_length _ _ (Nat.le_max_right _ _)
  have hlz : ((padLeft (max input.sizes.length other.sizes.length) input.sizes).zip
        (padLeft (max input.sizes.length other.sizes.length) other.sizes)).length
      = max input.sizes.length other.sizes.length := by
    rw [List.length_zip, hpa, hpb, Nat.min_self]
  constructor
  · rintro ⟨i, hi, hnc⟩
    have hiz : i < ((padLeft (max input.sizes.length other.sizes.length) input.sizes).zip
        (padLeft (max input.sizes.length other.sizes.length) other.sizes)).length := by
      rw [hlz]; exact hi
    have herr : infer_size input.sizes other.sizes
        = Except.error CrossError.IncompatibleShapes := by
      apply inferSizeAux_error_of_incompat
      refine ⟨_, List.getElem_mem hiz, ?_⟩
      rw [List.getElem_zip]
      unfold compatibleExtent alignedExtent at hnc
      rw [List.getD_eq_getElem _ 1 (lt_of_lt_of_eq hi hpa.symm),
        List.getD_eq_getElem _ 1 (lt_of_lt_of_eq hi hpb.symm)] at hnc
      exact hnc
    simp [linalg_cross_out, herr]
  · intro hall
    have hcompat : ∀ p ∈ (padLeft (max input.sizes.length other.sizes.length) input.sizes).zip
        (padLeft (max input.sizes.length other.sizes.length) other.sizes),
        p.1 = p.2 ∨ p.1 = 1 ∨ p.2 = 1 := by
      intro p hp
      obtain ⟨i, hiz, hpi⟩ := List.mem_iff_getElem.mp hp
      have hin : i < max input.sizes.length other.sizes.length := by
        rw [hlz] at hiz; exact hiz
      have hc := hall i hin
      rw [← hpi, List.getElem_zip]
      unfold compatibleExtent alignedExtent at hc
      rw [List.getD_eq_getElem _ 1 (lt_of_lt_of_eq hin hpa.symm),
        List.getD_eq_getElem _ 1 (lt_of_lt_of_eq hin hpb.symm)] at hc
      exact hc
    have hok := inferSizeAux_ok_of_compat _ hcompat
    refine ⟨_, hok, ?_, ?_⟩
    · rw [List.length_map, hlz]
    · intro i hin
      have hiz : i < ((padLeft (max input.sizes.length other.sizes.length) input.sizes).zip
          (padLeft (max input.sizes.length other.sizes.length) other.sizes)).length := by
        rw [hlz]; exact hin
      rw [List.getD_eq_getElem _ 1 (show i < _ by rw [List.length_map]; exact hiz),
        List.getElem_map, List.getElem_zip]
      unfold alignedExtent
      rw [List.getD_eq_getElem _ 1 (lt_of_lt_of_eq hin hpa.symm),
        List.getD_eq_getElem _ 1 (lt_of_lt_of_eq hin hpb.symm)]

/-- Witness for C5, the spec's own example: shapes `(2,3)` and `(4,3)`
conflict at the leading aligned position and the call fails with
`IncompatibleShapes`. -/
theorem broadcast_rules_incompatible_or_max_witness :
    (linalg_cross_out (Tensor.mk [2, 3] (fun _ => 0) DeviceType.cpu)
        (Tensor.mk [4, 3] (fun _ => 0) DeviceType.cpu) 0
        (emptyLike0 DeviceType.cpu)).status
      = Except.error CrossError.IncompatibleShapes :=
  (broadcast_rules_incompatible_or_max
      (Tensor.mk [2, 3] (fun _ => 0) DeviceType.cpu)
      (Tensor.mk [4, 3] (fun _ => 0) DeviceType.cpu)
      (emptyLike0 DeviceType.cpu) 0).1 ⟨0, by decide, by decide⟩

/-- Counterexample to C1 as stated: with first input of shape `[3]`,
second input of shape `[2,3]` and axis `-1`, the broadcast shape is
`[2,3]` (rank 2), yet the resolved axis is `-1 + 1 = 0` (wrapped against
the rank of the original first input, Cross.cpp line 61), not
`-1 + 2 = 1`; consequently the call fails with the extent error even
though the extent at `-1 + 2 = 1` is 3. -/
theorem axis_wrap_uses_input_rank_cex :
    infer_size [(3 : Int)] [2, 3] = Except.ok [2, 3] ∧
    resolvedDim (Tensor.mk [3] (fun _ => 0) DeviceType.cpu) (-1) = Except.ok 0 ∧
    (0 : Int) ≠ -1 + 2 ∧
    List.getD [(2 : Int), 3] (Int.toNat (-1 + 2)) 0 = 3 ∧
    (linalg_cross_out (Tensor.mk [3] (fun _ => 0) DeviceType.cpu)
        (Tensor.mk [2, 3] (fun _ => 0) DeviceType.cpu) (-1)
        (emptyLike0 DeviceType.cpu)).status
      = Except.error CrossError.AxisExtentMismatch :=
  ⟨rfl, rfl, by decide, by decide, rfl⟩

/-- C1 amended: the axis is normalized against the rank of the ORIGINAL
first input, not the broadcast rank: for every negative axis accepted by
the wrap, the resolved axis equals axis plus the first input's rank, and
after resolution `0 ≤ axis < input rank ≤ broadcast rank` (so the
resolved axis is still within the broadcast shape). -/
theorem axis_wrap_against_input_rank (input other : Tensor)
    (dimension d : Int) (out_size : List Int)
    (hsz : infer_size input.sizes other.sizes = Except.ok out_size)
    (hneg : dimension < 0)
    (hok : resolvedDim input dimension = Except.ok d) :
    d = dimension + Int.ofNat input.sizes.length ∧
    0 ≤ d ∧ d < Int.ofNat input.sizes.length ∧ d < Int.ofNat out_size.length := by
  obtain ⟨h0, hlt⟩ := resolvedDim_lt_rank input dimension d hok
  obtain ⟨hlo, hhi, hval⟩ := maybe_wrap_dim_ok _ _ _ hok
  refine ⟨by rw [hval, if_pos hneg], h0, hlt, ?_⟩
  have hlen := infer_size_ok_length _ _ _ hsz
  have hle : input.sizes.length ≤ out_size.length := by
    rw [hlen]; exact Nat.le_max_left _ _
  exact lt_of_lt_of_le hlt (Int.ofNat_le.mpr hle)

/-- Witness for the amended C1: axis `-1` against a rank-2 first input
resolves to `-1 + 2 = 1`, within both the input rank and the broadcast
rank. -/
theorem axis_wrap_against_input_rank_witness :
    (1 : Int) = -1 + Int.ofNat
        ((Tensor.mk [2, 3] (fun _ => 0) DeviceType.cpu).sizes.length) ∧
    (0 : Int) ≤ 1 ∧
    (1 : Int) < Int.ofNat
        ((Tensor.mk [2, 3] (fun _ => 0) DeviceType.cpu).sizes.length) ∧
    (1 : Int) < Int.ofNat ([(2 : Int), 3].length) :=
  axis_wrap_against_input_rank
    (Tensor.mk [2, 3] (fun _ => 0) DeviceType.cpu)
    (Tensor.mk [2, 3] (fun _ => 0) DeviceType.cpu)
    (-1) 1 [2, 3] rfl (by decide) rfl

/-- Counterexample to C8 as stated: for inputs of ranks 1 and 2 and the
valid negative axis `-1`, both calls succeed (each resolved axis has
extent 3), yet the two outputs are crosses along different axes — the
element at multi-index `(0,0)` is `10` one way and `-1` the other, and
`10 ≠ -(-1)` — so anticommutativity fails. -/
theorem cross_anticommutativity_cex :
    (linalg_cross_out
        (Tensor.mk [3] (fun idx => Int.ofNat (List.getD idx 0 0) + 1)
          DeviceType.cpu)
        (Tensor.mk [3, 3]
          (fun idx => 10 * Int.ofNat (List.getD idx 0 0)
            + Int.ofNat (List.getD idx 1 0)) DeviceType.cpu)
        (-1) (emptyLike0 DeviceType.cpu)).status = Except.ok () ∧
    (linalg_cross_out
        (Tensor.mk [3, 3]
          (fun idx => 10 * Int.ofNat (List.getD idx 0 0)
            + Int.ofNat (List.getD idx 1 0)) DeviceType.cpu)
        (Tensor.mk [3] (fun idx => Int.ofNat (List.getD idx 0 0) + 1)
          DeviceType.cpu)
        (-1) (emptyLike0 DeviceType.cpu)).status = Except.ok () ∧
    (linalg_cross_out
        (Tensor.mk [3] (fun idx => Int.ofNat (List.getD idx 0 0) + 1)
          DeviceType.cpu)
        (Tensor.mk [3, 3]
          (fun idx => 10 * Int.ofNat (List.getD idx 0 0)
            + Int.ofNat (List.getD idx 1 0)) DeviceType.cpu)
        (-1) (emptyLike0 DeviceType.cpu)).out.data [0, 0] = 10 ∧
    (linalg_cross_out
        (Tensor.mk [3, 3]
          (fun idx => 10 * Int.ofNat (List.getD idx 0 0)
            + Int.ofNat (List.getD idx 1 0)) DeviceType.cpu)
        (Tensor.mk [3] (fun idx => Int.ofNat (List.getD idx 0 0) + 1)
          DeviceType.cpu)
        (-1) (emptyLike0 DeviceType.cpu)).out.data [0, 0] = -1 ∧
    (10 : Int) ≠ -(-1) :=
  ⟨rfl, rfl, rfl, rfl, by decide⟩

/-- C8 amended: anticommutativity holds for every non-negative axis (the
counterexample's negative axis is excluded because a negative axis is
wrapped against each call's own first-input rank, and those ranks can
differ): whenever both opposite-order calls succeed, every element of
one output is the negation of the corresponding element of the other,
per the kernel equations. -/
theorem cross_anticommutativity (input other out1 out2 : Tensor)
    (dimension : Int) (hd : 0 ≤ dimension)
    (h1 : (linalg_cross_out input other dimension out1).status = Except.ok ())
    (h2 : (linalg_cross_out other input dimension out2).status = Except.ok ())
    (idx : List Nat) :
    (linalg_cross_out input other dimension out1).out.data idx
      = -(linalg_cross_out other input dimension out2).out.data idx := by
  cases hsz : infer_size input.sizes other.sizes with
  | error e => simp [linalg_cross_out, hsz] at h1
  | ok out_size =>
    have hsz2 : infer_size other.sizes input.sizes = Except.ok out_size := by
      rw [infer_size_comm]; exact hsz
    cases hd1 : resolvedDim input dimension with
    | error e => simp [linalg_cross_out, hsz, hd1] at h1
    | ok d1 =>
      cases hd2 : resolvedDim other dimension with
      | error e => simp [linalg_cross_out, hsz2, hd2] at h2
      | ok d2 =>
        have e1 : d1 = dimension := resolvedDim_nonneg_ok _ _ _ hd hd1
        have e2 : d2 = dimension := resolvedDim_nonneg_ok _ _ _ hd hd2
        rw [e1] at hd1
        rw [e2] at hd2
        simp only [linalg_cross_out, hsz, hsz2, hd1, hd2] at h1 h2 ⊢
        by_cases hc1 :
            List.getD (broadcastStep input out_size).1.sizes dimension.toNat 0 = 3
        · by_cases hc2 :
              List.getD (broadcastStep other out_size).1.sizes dimension.toNat 0 = 3
          · rw [if_pos hc1, if_pos hc2]
            exact crossKernelData_anticomm _ _ _ idx
          · rw [if_neg hc2] at h2
            simp at h2
        · rw [if_neg hc1] at h1
          simp at h1

/-- Witness for the amended C8: `cross((1,0,0),(0,1,0)) = (0,0,1)` and
`cross((0,1,0),(1,0,0)) = (0,0,-1)` at axis 0, checked at the third
component. -/
theorem cross_anticommutativity_witness :
    (linalg_cross_out
        (Tensor.mk [3] (fun idx => if List.getD idx 0 0 = 0 then 1 else 0)
          DeviceType.cpu)
        (Tensor.mk [3] (fun idx => if List.getD idx 0 0 = 1 then 1 else 0)
          DeviceType.cpu) 0 (emptyLike0 DeviceType.cpu)).out.data [2]
      = -(linalg_cross_out
        (Tensor.mk [3] (fun idx => if List.getD idx 0 0 = 1 then 1 else 0)
          DeviceType.cpu)
        (Tensor.mk [3] (fun idx => if List.getD idx 0 0 = 0 then 1 else 0)
          DeviceType.cpu) 0 (emptyLike0 DeviceType.cpu)).out.data [2] :=
  cross_anticommutativity
    (Tensor.mk [3] (fun idx => if List.getD idx 0 0 = 0 then 1 else 0)
      DeviceType.cpu)
    (Tensor.mk [3] (fun idx => if List.getD idx 0 0 = 1 then 1 else 0)
      DeviceType.cpu)
    (emptyLike0 DeviceType.cpu) (emptyLike0 DeviceType.cpu) 0
    (by decide) rfl rfl [2]

end CrossSpec
